import Mathlib

/-!
Shallow embedding of the core of the `rust-arena` crate
(src/single_chunk.rs, src/single.rs, src/arena_trait.rs,
src/arena_allocator.rs, src/arena_box.rs).

Machine integers: `usize` is modelled as `Nat` together with the explicit
bound `USIZE = 2^64`; the Rust checked operations (`checked_add`,
`checked_add_signed`) are modelled with their wrapping/carry semantics made
explicit.  Pointers are modelled as `Nat` addresses.  Interior mutability
(`Cell`, `Mutex`) becomes explicit state passing: every method that mutates
through `&self` takes the state and returns the new state.  A Rust `panic!`
or `expect` failure (which aborts the enclosing process here) is the
`fatal` outcome; `Option::None` returned from `allocate` is the
`noCapacity` outcome, carrying the (unchanged) state visible to the caller.
A poisoned `Mutex` is modelled by a boolean flag per mutex: `lock()`
returns `Err` exactly when the flag is set.
-/

namespace RustArena

/-- Size of the usize address space: the model fixes a 64-bit platform. -/
def USIZE : Nat := 18446744073709551616

/-- Rust `usize::checked_add`: `none` exactly when the sum overflows. -/
def checked_add (a b : Nat) : Option Nat :=
  if a + b < USIZE then some (a + b) else none

/-- Rust `usize::checked_add_signed(rhs: isize)`, modelled the way core
implements it: reinterpret `rhs` as unsigned (`rhs as usize`, i.e.
`rhs.emod 2^64`), perform the wrapping add recording the carry, and signal
overflow when the carry bit differs from the sign bit of `rhs`. -/
def checked_add_signed (a : Nat) (d : Int) : Option Nat :=
  if (USIZE ≤ a + (d % (USIZE : Int)).toNat ∧ d < 0) ∨
     (a + (d % (USIZE : Int)).toNat < USIZE ∧ 0 ≤ d) then
    some ((a + (d % (USIZE : Int)).toNat) % USIZE)
  else
    none

/-- Rust `<*mut u8>::align_offset(align)` for a byte pointer at address
`addr` and a power-of-two alignment: the least `k` with
`(addr + k) % align = 0`. -/
def align_offset (addr align : Nat) : Nat :=
  (align - addr % align) % align

/-- Description of the `ArenaBox` handed back by an allocation: the address
of the placed object, and whether the box carries a back-reference to its
chunk (`arena: Option<&A>` — `none` for zero-sized types, whose box holds
`NonNull::dangling()`, i.e. the address `align`). -/
structure HandleDesc where
  addr : Nat
  hasArena : Bool
deriving DecidableEq, Repr

/-- Outcome of an `allocate` call on state type `σ`:
`fatal` models a Rust panic/abort (the process dies, no state is returned
to any caller); `noCapacity` models returning `None`, carrying the state
the caller observes afterwards; `ok` models returning `Some(ArenaBox)`. -/
inductive AllocResult (σ : Type) where
  | fatal : AllocResult σ
  | noCapacity : σ → AllocResult σ
  | ok : σ → HandleDesc → AllocResult σ
deriving DecidableEq, Repr

/-- State of `single_chunk::SingleArena` (identical layout in `single.rs`):
a fixed size, the start address returned by the one-time system
allocation, the bump cursor (`free_pointer: Cell<*mut u8>`), and the
live-allocation counter (`allocations: Cell<usize>`). -/
structure SingleArena where
  size : Nat
  start_pointer : Nat
  free_pointer : Nat
  allocations : Nat
deriving DecidableEq, Repr

/-- `SingleArena::remaining_capacity`:
`(start_pointer as usize + size) - free_pointer as usize`. -/
def SingleArena.remaining_capacity (a : SingleArena) : Nat :=
  a.start_pointer + a.size - a.free_pointer

/-- `SingleArena::adjust_allocation_count`: `checked_add_signed` on the
counter, with `expect` turning `None` into a panic (here: the caller maps
`none` to `fatal`).  Returns the new counter value on success. -/
def SingleArena.adjust_allocation_count (a : SingleArena) (count : Int) :
    Option Nat :=
  checked_add_signed a.allocations count

/-- `ArenaChunk::write_to_memory` as inherited by `SingleArena`: write the
object at `free_pointer + offset`, advance the cursor by
`byte_size + offset`, bump the counter (panicking on counter overflow),
and return the box. -/
def SingleArena.write_to_memory (a : SingleArena) (byte_size offset : Nat) :
    AllocResult SingleArena :=
  match a.adjust_allocation_count 1 with
  | none => .fatal
  | some n =>
      .ok { a with
              free_pointer := a.free_pointer + (byte_size + offset),
              allocations := n }
          ⟨a.free_pointer + offset, true⟩

/-- `SingleArena::allocate` (src/single_chunk.rs:24-42) for an object of
the given size and alignment: zero-sized types get a detached box; then
`size.checked_add(offset)?` (the `?` turns an overflow into `None`), and
the capacity test `size + offset ≤ remaining_capacity` guards the write. -/
def SingleArena.allocate (a : SingleArena) (size align : Nat) :
    AllocResult SingleArena :=
  if size = 0 then .ok a ⟨align, false⟩
  else
    match checked_add size (align_offset a.free_pointer align) with
    | none => .noCapacity a
    | some total =>
        if total ≤ a.remaining_capacity then
          a.write_to_memory size (align_offset a.free_pointer align)
        else .noCapacity a

/-- `ArenaChunk::allocate_unchecked`: recompute the alignment offset at
the current cursor and write, with no zero-size or capacity check. -/
def SingleArena.allocate_unchecked (a : SingleArena) (size align : Nat) :
    AllocResult SingleArena :=
  a.write_to_memory size (align_offset a.free_pointer align)

/-- `ArenaChunk::new_unchecked` for `SingleArena`, with the address the
system allocator returned passed in explicitly (the real allocator only
guarantees single-byte alignment, so `start` is arbitrary). -/
def SingleArena.new_unchecked (size start : Nat) : SingleArena :=
  ⟨size, start, start, 0⟩

/-- State of `single::AtomicSingleArena`: same data as `SingleArena`, but
the cursor and the counter each live behind an `Arc<Mutex<usize>>`; the
two boolean flags record whether the respective mutex is poisoned. -/
structure AtomicSingleArena where
  size : Nat
  start_pointer : Nat
  free_pointer : Nat
  allocations : Nat
  freePoisoned : Bool
  allocPoisoned : Bool
deriving DecidableEq, Repr

/-- `AtomicSingleArena::adjust_allocation_count`: locks the counter mutex
with `expect` (panic when poisoned), then `checked_add_signed` with
`expect` (panic on overflow/underflow).  `none` models the panic. -/
def AtomicSingleArena.adjust_allocation_count (a : AtomicSingleArena)
    (count : Int) : Option Nat :=
  if a.allocPoisoned then none
  else checked_add_signed a.allocations count

/-- `AtomicSingleArena::write_to_memory_with_lock` (src/single.rs:100-113):
with the cursor lock held, write at `free_pointer + offset`, set the
cursor to `free_pointer + (byte_size + offset)`, bump the counter
(panicking on poison or overflow), return the box. -/
def AtomicSingleArena.write_to_memory_with_lock (a : AtomicSingleArena)
    (byte_size offset : Nat) : AllocResult AtomicSingleArena :=
  match a.adjust_allocation_count 1 with
  | none => .fatal
  | some n =>
      .ok { a with
              free_pointer := a.free_pointer + (byte_size + offset),
              allocations := n }
          ⟨a.free_pointer + offset, true⟩

/-- `AtomicSingleArena::allocate` (src/single.rs:121-141): zero-sized
types get a detached box before any locking; `self.free_pointer.lock().ok()?`
returns `None` when the mutex is poisoned; then the capacity test is
`free_pointer.checked_add(size)? ≤ start_pointer + size` — note that it
does not add the alignment offset computed on the previous line. -/
def AtomicSingleArena.allocate (a : AtomicSingleArena) (size align : Nat) :
    AllocResult AtomicSingleArena :=
  if size = 0 then .ok a ⟨align, false⟩
  else if a.freePoisoned then .noCapacity a
  else
    match checked_add a.free_pointer size with
    | none => .noCapacity a
    | some total =>
        if total ≤ a.start_pointer + a.size then
          a.write_to_memory_with_lock size (align_offset a.free_pointer align)
        else .noCapacity a

/-- `arena_allocator::CHUNK_SIZE`. -/
def CHUNK_SIZE : Nat := 4096

/-- `arena_allocator::Arena`: an append-only list of chunks
(`UnshrinkableLinkedList<SingleArena>`); `last` is `List.getLast?`,
`push` appends at the end. -/
structure Arena where
  chunks : List SingleArena
deriving DecidableEq, Repr

/-- `Arena::new_chunk` (src/arena_allocator.rs:19-22): push a fresh
`SingleArena::new_unchecked(max(min_size, CHUNK_SIZE))`; `start` is the
address handed out by the system allocator for that chunk. -/
def Arena.new_chunk (ar : Arena) (min_size start : Nat) : Arena :=
  { chunks :=
      ar.chunks ++ [SingleArena.new_unchecked (max min_size CHUNK_SIZE) start] }

/-- Replace the last element of the chunk list (the chunk mutated through
`&self` by a delegated allocation). -/
def setLast (cs : List SingleArena) (c : SingleArena) : List SingleArena :=
  cs.dropLast ++ [c]

/-- Delegation of an allocation to chunk `c`, the last chunk of `ar`:
`chunk.allocate_unchecked(object)`.  In Rust `allocate_unchecked` returns
the box directly (it cannot report missing capacity), so the `noCapacity`
branch here is dead code kept only to make the match total. -/
def Arena.delegate (ar : Arena) (c : SingleArena) (size align : Nat) :
    AllocResult Arena :=
  match c.allocate_unchecked size align with
  | .fatal => .fatal
  | .noCapacity _ => .noCapacity ar
  | .ok c2 h => .ok ⟨setLast ar.chunks c2⟩ h

/-- The fall-through path of `Arena::allocate` (src/arena_allocator.rs:48-53):
create a new chunk sized `max(size, CHUNK_SIZE)`, `last().unwrap()` it
(`fatal` on the impossible `None`), and `allocate_unchecked` into it. -/
def Arena.allocate_in_new_chunk (ar : Arena) (size align start : Nat) :
    AllocResult Arena :=
  match (ar.new_chunk size start).chunks.getLast? with
  | none => .fatal
  | some c => (ar.new_chunk size start).delegate c size align

/-- `Arena::allocate` (src/arena_allocator.rs:33-54): zero-sized types get
a detached box; otherwise, if a last chunk exists and
`size ≤ chunk.remaining_capacity()` (no alignment padding in this test),
delegate to it, else append a new chunk and allocate there.  `start` is
the address the system allocator would return for a freshly created
chunk. -/
def Arena.allocate (ar : Arena) (size align start : Nat) :
    AllocResult Arena :=
  if size = 0 then .ok ar ⟨align, false⟩
  else
    match ar.chunks.getLast? with
    | some chunk =>
        if size ≤ chunk.remaining_capacity then ar.delegate chunk size align
        else ar.allocate_in_new_chunk size align start
    | none => ar.allocate_in_new_chunk size align start

/-- Model of one `ArenaBox<T, A>`: the address of the object and the
`arena: Option<&A>` back-reference (`hasArena = false` for the detached
boxes of zero-sized types). -/
structure ArenaBoxM where
  addr : Nat
  hasArena : Bool
deriving DecidableEq, Repr

/-- `ArenaBox::drop_notify_arena` acting on the owning chunk's counter:
`adjust_allocation_count(-1)` when the back-reference exists (with `none`
modelling the fatal underflow panic), no effect otherwise. -/
def ArenaBoxM.drop_notify_arena (b : ArenaBoxM) (count : Nat) : Option Nat :=
  if b.hasArena then checked_add_signed count (-1) else some count

/-- The `Drop` impl of `ArenaBox` (src/arena_box.rs:75-87): notify the
chunk, then `drop(std::ptr::read(self.inner.as_ptr()))` runs the
contained value's destructor exactly once.  Result: the chunk counter
after the notification and the number of times the value's teardown ran
during the drop. -/
def ArenaBoxM.dropBox (b : ArenaBoxM) (count : Nat) : Option (Nat × Nat) :=
  match b.drop_notify_arena count with
  | none => none
  | some c => some (c, 1)

/-- `ArenaBox::into_inner` (src/arena_box.rs:26-36): notify the chunk,
`mem::forget` the box (so the `Drop` impl — and with it the value's
teardown — is suppressed on the box itself), and `ptr::read` the value
out.  Result: the chunk counter after the notification, the number of
teardowns the box itself ran (`0`, thanks to the `forget`), and the
number of teardown obligations carried away by the returned value (`1`:
the caller now owns the value, whose destructor will run once). -/
def ArenaBoxM.into_inner (b : ArenaBoxM) (count : Nat) :
    Option (Nat × Nat × Nat) :=
  match b.drop_notify_arena count with
  | none => none
  | some c => some (c, 0, 1)

/-- Result state of an `allocate` call on a `SingleArena`, as observed by
the owner of the chunk (a `fatal` outcome kills the process, so the state
is never observed; returning `a` there keeps the function total). -/
def SingleArena.allocState (a : SingleArena) (size align : Nat) :
    SingleArena :=
  match a.allocate size align with
  | .ok a2 _ => a2
  | .noCapacity a2 => a2
  | .fatal => a

/-- Iterated allocation into a `SingleArena`: `n` calls in sequence. -/
def SingleArena.iterAllocate (a : SingleArena) (size align : Nat) :
    Nat → SingleArena
  | 0 => a
  | n + 1 => (a.iterAllocate size align n).allocState size align

/-- Result state of an `allocate` call on an `AtomicSingleArena`. -/
def AtomicSingleArena.allocState (a : AtomicSingleArena) (size align : Nat) :
    AtomicSingleArena :=
  match a.allocate size align with
  | .ok a2 _ => a2
  | .noCapacity a2 => a2
  | .fatal => a

/-- Iterated allocation into an `AtomicSingleArena`. -/
def AtomicSingleArena.iterAllocate (a : AtomicSingleArena)
    (size align : Nat) : Nat → AtomicSingleArena
  | 0 => a
  | n + 1 => (a.iterAllocate size align n).allocState size align

/-- Result state of an `allocate` call on an `Arena`. -/
def Arena.allocState (ar : Arena) (size align start : Nat) : Arena :=
  match ar.allocate size align start with
  | .ok ar2 _ => ar2
  | .noCapacity ar2 => ar2
  | .fatal => ar

/-- Iterated allocation into an `Arena`. -/
def Arena.iterAllocate (ar : Arena) (size align start : Nat) :
    Nat → Arena
  | 0 => ar
  | n + 1 => (ar.iterAllocate size align start n).allocState size align start

/-! Helper lemmas about the machine-arithmetic primitives. -/

theorem checked_add_eq_none_iff (a b : Nat) :
    checked_add a b = none ↔ USIZE ≤ a + b := by
  unfold checked_add
  split <;> simp_all

theorem checked_add_eq_some_iff (a b c : Nat) :
    checked_add a b = some c ↔ a + b = c ∧ a + b < USIZE := by
  unfold checked_add
  split
  · simp_all
  · simp_all
    omega

/-- Characterisation of the carry/sign-bit formulation of
`checked_add_signed`: for a `usize` operand and an `isize` argument it
returns the mathematical sum exactly when that sum is representable. -/
theorem checked_add_signed_spec (a : Nat) (d : Int) (ha : a < USIZE)
    (hd1 : -(9223372036854775808 : Int) ≤ d)
    (hd2 : d < 9223372036854775808) :
    checked_add_signed a d =
      if 0 ≤ (a : Int) + d ∧ (a : Int) + d < (USIZE : Int) then
        some (((a : Int) + d).toNat)
      else none := by
  simp only [checked_add_signed, USIZE, Nat.cast_ofNat] at ha ⊢
  split_ifs with h1 h2 <;> try rfl
  · simp only [Option.some.injEq]
    omega
  · exfalso; omega
  · exfalso; omega

/-- Bump alignment: the padded address is a multiple of the alignment. -/
theorem align_offset_aligns (addr align : Nat) (h : 0 < align) :
    (addr + align_offset addr align) % align = 0 := by
  unfold align_offset
  rcases Nat.eq_zero_or_pos (addr % align) with h0 | h0
  · have h1 : align - addr % align = align := by omega
    rw [h1, Nat.mod_self, Nat.add_zero]
    exact h0
  · have hlt : addr % align < align := Nat.mod_lt _ h
    have h1 : (align - addr % align) % align = align - addr % align :=
      Nat.mod_eq_of_lt (by omega)
    rw [h1]
    have h2 : addr + (align - addr % align) = align * (addr / align + 1) := by
      have h3 := Nat.div_add_mod addr align
      have h4 : align * (addr / align + 1) = align * (addr / align) + align := by
        ring
      omega
    rw [h2, Nat.mul_mod_right]

/-! Helper lemmas about the allocation paths. -/

theorem SingleArena.write_to_memory_ne_noCapacity (a : SingleArena)
    (byte_size offset : Nat) (s : SingleArena) :
    a.write_to_memory byte_size offset ≠ .noCapacity s := by
  unfold SingleArena.write_to_memory
  cases a.adjust_allocation_count 1 <;> simp

theorem SingleArena.allocate_unchecked_ne_noCapacity (a : SingleArena)
    (size align : Nat) (s : SingleArena) :
    a.allocate_unchecked size align ≠ .noCapacity s := by
  unfold SingleArena.allocate_unchecked
  exact a.write_to_memory_ne_noCapacity _ _ s

theorem Arena.delegate_ne_noCapacity (ar : Arena) (c : SingleArena)
    (size align : Nat) (s : Arena) :
    ar.delegate c size align ≠ .noCapacity s := by
  unfold Arena.delegate
  cases h : c.allocate_unchecked size align with
  | fatal => simp
  | noCapacity s2 => exact absurd h (c.allocate_unchecked_ne_noCapacity size align s2)
  | ok c2 hd => simp

theorem Arena.allocate_in_new_chunk_eq (ar : Arena) (size align start : Nat) :
    ar.allocate_in_new_chunk size align start =
      .ok ⟨ar.chunks ++
            [⟨max size CHUNK_SIZE, start,
              start + (size + align_offset start align), 1⟩]⟩
          ⟨start + align_offset start align, true⟩ := by
  have h1 : checked_add_signed 0 1 = some 1 := by decide
  simp [Arena.allocate_in_new_chunk, Arena.new_chunk, SingleArena.new_unchecked,
    Arena.delegate, SingleArena.allocate_unchecked, SingleArena.write_to_memory,
    SingleArena.adjust_allocation_count, setLast, h1]

theorem Arena.allocate_ne_noCapacity (ar : Arena) (size align start : Nat)
    (s : Arena) : ar.allocate size align start ≠ .noCapacity s := by
  unfold Arena.allocate
  split
  · simp
  · split
    · split
      · apply Arena.delegate_ne_noCapacity
      · rw [Arena.allocate_in_new_chunk_eq]
        simp
    · rw [Arena.allocate_in_new_chunk_eq]
      simp

theorem SingleArena.write_to_memory_ok_addr (a : SingleArena)
    (byte_size offset : Nat) (a2 : SingleArena) (h : HandleDesc)
    (he : a.write_to_memory byte_size offset = .ok a2 h) :
    h.addr = a.free_pointer + offset := by
  unfold SingleArena.write_to_memory at he
  cases hc : a.adjust_allocation_count 1 with
  | none => rw [hc] at he; exact absurd he (by simp)
  | some n =>
      rw [hc] at he
      simp only [AllocResult.ok.injEq] at he
      rw [← he.2]

theorem AtomicSingleArena.write_with_lock_ok_addr (a : AtomicSingleArena)
    (byte_size offset : Nat) (a2 : AtomicSingleArena) (h : HandleDesc)
    (he : a.write_to_memory_with_lock byte_size offset = .ok a2 h) :
    h.addr = a.free_pointer + offset := by
  unfold AtomicSingleArena.write_to_memory_with_lock at he
  cases hc : a.adjust_allocation_count 1 with
  | none => rw [hc] at he; exact absurd he (by simp)
  | some n =>
      rw [hc] at he
      simp only [AllocResult.ok.injEq] at he
      rw [← he.2]

/-! Claim theorems. -/

/-- C1 (code_bug evaluation): the claim states that for every chunk —
including the concurrent `AtomicSingleArena` — the free cursor always
stays within `[start, start + size]`.  The concurrent chunk violates
this: its capacity check (src/single.rs:133) compares
`free_pointer + size` against `start_pointer + size` and leaves out the
alignment offset computed on the line above.  Evaluating the code on an
`AtomicSingleArena` of size 2 whose buffer starts at the odd address 1,
allocating an object of size 2 and alignment 2, the check passes, the
object is written at address 2, and the cursor ends at address
4 = start + 3, strictly beyond start + size = 3. -/
theorem C1_atomic_cursor_exceeds_bounds :
    AtomicSingleArena.allocate ⟨2, 1, 1, 0, false, false⟩ 2 2 =
      .ok ⟨2, 1, 4, 1, false, false⟩ ⟨2, true⟩ ∧
    (⟨2, 1, 4, 1, false, false⟩ : AtomicSingleArena).start_pointer +
        (⟨2, 1, 4, 1, false, false⟩ : AtomicSingleArena).size <
      (⟨2, 1, 4, 1, false, false⟩ : AtomicSingleArena).free_pointer := by
  decide

/-- C2: for a non-zero-size object, `SingleArena::allocate` returns the
"no capacity" result (`None`) exactly when the object's size plus the
alignment padding at the current cursor exceeds `remaining_capacity`
(this includes the case where `size + padding` overflows `usize`, which
the code turns into `None` via `checked_add`), and whenever it does so
the chunk state — cursor and live-allocation count included — is the
unchanged input state.  The only well-formedness assumption is that the
chunk's buffer fits in the address space (`start + size < 2^64`). -/
theorem C2_single_no_capacity_iff (a : SingleArena) (size align : Nat)
    (hsize : size ≠ 0) (hwf : a.start_pointer + a.size < USIZE) :
    (a.allocate size align = .noCapacity a ↔
      a.remaining_capacity < size + align_offset a.free_pointer align) ∧
    (∀ a2 : SingleArena, a.allocate size align = .noCapacity a2 → a2 = a) := by
  have hrem : a.remaining_capacity < USIZE := by
    unfold SingleArena.remaining_capacity
    omega
  unfold SingleArena.allocate
  rw [if_neg hsize]
  cases hc : checked_add size (align_offset a.free_pointer align) with
  | none =>
      rw [checked_add_eq_none_iff] at hc
      constructor
      · exact Iff.intro (fun _ => by omega) (fun _ => rfl)
      · intro a2 he
        simp only [AllocResult.noCapacity.injEq] at he
        exact he.symm
  | some total =>
      rw [checked_add_eq_some_iff] at hc
      dsimp only
      by_cases hle : total ≤ a.remaining_capacity
      · rw [if_pos hle]
        constructor
        · constructor
          · intro he
            exact absurd he (a.write_to_memory_ne_noCapacity _ _ a)
          · intro hlt
            exfalso
            omega
        · intro a2 he
          exact absurd he (a.write_to_memory_ne_noCapacity _ _ a2)
      · rw [if_neg hle]
        constructor
        · exact Iff.intro (fun _ => by omega) (fun _ => rfl)
        · intro a2 he
          simp only [AllocResult.noCapacity.injEq] at he
          exact he.symm

theorem C2_witness :
    (2 : Nat) ≠ 0 ∧
    (⟨1, 0, 0, 0⟩ : SingleArena).start_pointer +
        (⟨1, 0, 0, 0⟩ : SingleArena).size < USIZE ∧
    ((SingleArena.allocate ⟨1, 0, 0, 0⟩ 2 1 = .noCapacity ⟨1, 0, 0, 0⟩ ↔
        (⟨1, 0, 0, 0⟩ : SingleArena).remaining_capacity <
          2 + align_offset (⟨1, 0, 0, 0⟩ : SingleArena).free_pointer 1) ∧
      (∀ a2 : SingleArena,
        SingleArena.allocate ⟨1, 0, 0, 0⟩ 2 1 = .noCapacity a2 → a2 = ⟨1, 0, 0, 0⟩)) :=
  ⟨by decide, by decide,
    C2_single_no_capacity_iff ⟨1, 0, 0, 0⟩ 2 1 (by decide) (by decide)⟩

/-- C3 (code_bug evaluation): the claim states that `Arena::allocate`
delegates to the existing last chunk only when its remaining capacity,
accounting for the alignment padding at its cursor, suffices — so a
delegated allocation never advances the cursor past `start + size`.  The
code's delegation test (src/arena_allocator.rs:43) is
`size ≤ remaining_capacity`, without padding.  Evaluating the code on an
arena whose single chunk has size 4096, buffer start at the odd address
1 and cursor at 4095 (remaining capacity 2), allocating an object of
size 2 and alignment 2: the arena delegates, `allocate_unchecked` pads
by 1, and the chunk's cursor ends at 4098, beyond
start + size = 4097. -/
theorem C3_arena_delegation_overruns_chunk :
    Arena.allocate ⟨[⟨4096, 1, 4095, 0⟩]⟩ 2 2 0 =
      .ok ⟨[⟨4096, 1, 4098, 1⟩]⟩ ⟨4096, true⟩ ∧
    (⟨4096, 1, 4098, 1⟩ : SingleArena).start_pointer +
        (⟨4096, 1, 4098, 1⟩ : SingleArena).size <
      (⟨4096, 1, 4098, 1⟩ : SingleArena).free_pointer := by
  decide

/-- C4 (counterexample): the claim states that every failure to acquire
the lock during `AtomicSingleArena::allocate` is fatal.  It is not:
`allocate` acquires the cursor lock with `self.free_pointer.lock().ok()?`
(src/single.rs:129), so on a poisoned mutex the call returns `None` — the
recoverable "no capacity" outcome — instead of terminating.  Evaluated
here on a poisoned chunk of size 8 with 8 free bytes, allocating 1 byte:
the call returns `noCapacity`, and does not hit the fatal path. -/
theorem C4_lock_poison_returns_none :
    AtomicSingleArena.allocate ⟨8, 0, 0, 0, true, true⟩ 1 1 =
      .noCapacity ⟨8, 0, 0, 0, true, true⟩ ∧
    AtomicSingleArena.allocate ⟨8, 0, 0, 0, true, true⟩ 1 1 ≠ .fatal := by
  decide

/-- C4 (amended): for `AtomicSingleArena`, a poisoned cursor lock makes
`allocate` (for a non-zero-size object) return `None` — indistinguishable
from the "no capacity" result, with the chunk state unchanged — while the
other chunk operations treat a poisoned lock as fatal, e.g.
`adjust_allocation_count` panics (`expect`) when the counter lock is
poisoned. -/
theorem C4_amended_lock_poison_behavior (a : AtomicSingleArena)
    (size align : Nat) (hsize : size ≠ 0) (hp : a.freePoisoned = true) :
    a.allocate size align = .noCapacity a ∧
    (a.allocPoisoned = true →
      ∀ d : Int, a.adjust_allocation_count d = none) := by
  constructor
  · unfold AtomicSingleArena.allocate
    rw [if_neg hsize, if_pos hp]
  · intro hp2 d
    unfold AtomicSingleArena.adjust_allocation_count
    rw [if_pos hp2]

theorem C4_amended_witness :
    (1 : Nat) ≠ 0 ∧
    (⟨8, 0, 0, 0, true, true⟩ : AtomicSingleArena).freePoisoned = true ∧
    (AtomicSingleArena.allocate ⟨8, 0, 0, 0, true, true⟩ 1 1 =
        .noCapacity ⟨8, 0, 0, 0, true, true⟩ ∧
      ((⟨8, 0, 0, 0, true, true⟩ : AtomicSingleArena).allocPoisoned = true →
        ∀ d : Int,
          AtomicSingleArena.adjust_allocation_count ⟨8, 0, 0, 0, true, true⟩ d =
            none)) :=
  ⟨by decide, by decide,
    C4_amended_lock_poison_behavior ⟨8, 0, 0, 0, true, true⟩ 1 1
      (by decide) (by decide)⟩

/-- C5: for a non-zero-size value, when the arena has no last chunk or
the last chunk lacks capacity (by the code's own test,
`size ≤ remaining_capacity`), `Arena::allocate` appends exactly one new
chunk of size `max(size, CHUNK_SIZE)` (CHUNK_SIZE = 4096) and completes
the allocation inside it — the returned chunk list is the old list with
the one new chunk at the end, holding the freshly written object; and
`Arena::allocate` never returns the "no capacity" outcome, for any
arena and any request. -/
theorem C5_arena_appends_one_chunk_and_never_fails (ar : Arena)
    (size align start : Nat) (hsize : size ≠ 0)
    (hfull : ∀ c : SingleArena,
      ar.chunks.getLast? = some c → c.remaining_capacity < size) :
    ar.allocate size align start =
      .ok ⟨ar.chunks ++
            [⟨max size CHUNK_SIZE, start,
              start + (size + align_offset start align), 1⟩]⟩
          ⟨start + align_offset start align, true⟩ ∧
    ∀ (b : Arena) (s al st : Nat) (s2 : Arena),
      b.allocate s al st ≠ .noCapacity s2 := by
  constructor
  · unfold Arena.allocate
    rw [if_neg hsize]
    cases h : ar.chunks.getLast? with
    | none =>
        dsimp only
        exact ar.allocate_in_new_chunk_eq size align start
    | some c =>
        dsimp only
        rw [if_neg (by have := hfull c h; omega)]
        exact ar.allocate_in_new_chunk_eq size align start
  · intro b s al st s2
    exact b.allocate_ne_noCapacity s al st s2

theorem C5_witness :
    (1 : Nat) ≠ 0 ∧
    (∀ c : SingleArena,
      (⟨[]⟩ : Arena).chunks.getLast? = some c → c.remaining_capacity < 1) ∧
    (Arena.allocate ⟨[]⟩ 1 1 0 =
        .ok ⟨[] ++ [⟨max 1 CHUNK_SIZE, 0, 0 + (1 + align_offset 0 1), 1⟩]⟩
            ⟨0 + align_offset 0 1, true⟩ ∧
      ∀ (b : Arena) (s al st : Nat) (s2 : Arena),
        b.allocate s al st ≠ .noCapacity s2) :=
  ⟨by decide, by simp,
    C5_arena_appends_one_chunk_and_never_fails ⟨[]⟩ 1 1 0 (by decide) (by simp)⟩

/-- C6: every successful non-zero-size allocation — through either chunk
variant or through the Arena — places the object at an address that is a
multiple of the requested alignment (alignments are at least 1 in Rust;
the offset `align_offset` is added to the cursor before writing). -/
theorem C6_allocation_addresses_aligned (size align : Nat)
    (hsize : size ≠ 0) (halign : 0 < align) :
    (∀ (a a2 : SingleArena) (h : HandleDesc),
        a.allocate size align = .ok a2 h → h.addr % align = 0) ∧
    (∀ (a a2 : AtomicSingleArena) (h : HandleDesc),
        a.allocate size align = .ok a2 h → h.addr % align = 0) ∧
    (∀ (ar ar2 : Arena) (start : Nat) (h : HandleDesc),
        ar.allocate size align start = .ok ar2 h → h.addr % align = 0) := by
  refine ⟨?_, ?_, ?_⟩
  · intro a a2 h he
    unfold SingleArena.allocate at he
    rw [if_neg hsize] at he
    cases hc : checked_add size (align_offset a.free_pointer align) with
    | none => rw [hc] at he; simp at he
    | some total =>
        rw [hc] at he
        dsimp only at he
        by_cases hle : total ≤ a.remaining_capacity
        · rw [if_pos hle] at he
          rw [a.write_to_memory_ok_addr _ _ _ _ he]
          exact align_offset_aligns _ _ halign
        · rw [if_neg hle] at he
          simp at he
  · intro a a2 h he
    unfold AtomicSingleArena.allocate at he
    rw [if_neg hsize] at he
    by_cases hp : a.freePoisoned
    · rw [if_pos hp] at he
      simp at he
    · rw [if_neg hp] at he
      cases hc : checked_add a.free_pointer size with
      | none => rw [hc] at he; simp at he
      | some total =>
          rw [hc] at he
          dsimp only at he
          by_cases hle : total ≤ a.start_pointer + a.size
          · rw [if_pos hle] at he
            rw [a.write_with_lock_ok_addr _ _ _ _ he]
            exact align_offset_aligns _ _ halign
          · rw [if_neg hle] at he
            simp at he
  · intro ar ar2 start h he
    unfold Arena.allocate at he
    rw [if_neg hsize] at he
    cases hl : ar.chunks.getLast? with
    | none =>
        rw [hl] at he
        dsimp only at he
        rw [ar.allocate_in_new_chunk_eq size align start] at he
        simp only [AllocResult.ok.injEq] at he
        rw [← he.2]
        exact align_offset_aligns start align halign
    | some c =>
        rw [hl] at he
        dsimp only at he
        by_cases hle : size ≤ c.remaining_capacity
        · rw [if_pos hle] at he
          unfold Arena.delegate at he
          cases hu : c.allocate_unchecked size align with
          | fatal => rw [hu] at he; simp at he
          | noCapacity s => rw [hu] at he; simp at he
          | ok c2 hd =>
              rw [hu] at he
              dsimp only at he
              simp only [AllocResult.ok.injEq] at he
              unfold SingleArena.allocate_unchecked at hu
              rw [← he.2, c.write_to_memory_ok_addr _ _ _ _ hu]
              exact align_offset_aligns _ _ halign
        · rw [if_neg hle] at he
          rw [ar.allocate_in_new_chunk_eq size align start] at he
          simp only [AllocResult.ok.injEq] at he
          rw [← he.2]
          exact align_offset_aligns start align halign

theorem C6_witness :
    (1 : Nat) ≠ 0 ∧ 0 < 1 ∧
    ((∀ (a a2 : SingleArena) (h : HandleDesc),
        a.allocate 1 1 = .ok a2 h → h.addr % 1 = 0) ∧
      (∀ (a a2 : AtomicSingleArena) (h : HandleDesc),
        a.allocate 1 1 = .ok a2 h → h.addr % 1 = 0) ∧
      (∀ (ar ar2 : Arena) (start : Nat) (h : HandleDesc),
        ar.allocate 1 1 start = .ok ar2 h → h.addr % 1 = 0)) :=
  ⟨by decide, by decide,
    C6_allocation_addresses_aligned 1 1 (by decide) (by decide)⟩

/-- C7: for a Handle that carries a chunk back-reference, dropping it
decrements the chunk's live-allocation count by exactly 1 and runs the
contained value's teardown exactly once; `into_inner` decrements the
count by exactly 1 as well, runs no teardown itself (the box is
`mem::forget`-ten), and transfers exactly one teardown obligation to
the returned value — so in both scenarios the value's teardown runs
exactly once in total.  The count hypotheses say a live allocation
exists (`0 < count`, as is the case whenever such a Handle exists) and
that the counter is a `usize` value. -/
theorem C7_release_and_extract_decrement_once (b : ArenaBoxM) (count : Nat)
    (hb : b.hasArena = true) (hpos : 0 < count) (hlt : count < USIZE) :
    b.dropBox count = some (count - 1, 1) ∧
    b.into_inner count = some (count - 1, 0, 1) := by
  have hn : b.drop_notify_arena count = some (count - 1) := by
    unfold ArenaBoxM.drop_notify_arena
    rw [if_pos hb,
      checked_add_signed_spec count (-1) hlt (by omega) (by omega),
      if_pos (by constructor <;> omega)]
    congr 1
    omega
  constructor
  · unfold ArenaBoxM.dropBox
    rw [hn]
  · unfold ArenaBoxM.into_inner
    rw [hn]

theorem C7_witness :
    (⟨0, true⟩ : ArenaBoxM).hasArena = true ∧ 0 < 1 ∧ 1 < USIZE ∧
    (ArenaBoxM.dropBox ⟨0, true⟩ 1 = some (0, 1) ∧
      ArenaBoxM.into_inner ⟨0, true⟩ 1 = some (0, 0, 1)) :=
  ⟨rfl, by decide, by decide,
    C7_release_and_extract_decrement_once ⟨0, true⟩ 1 rfl (by decide) (by decide)⟩

/-- C8: a zero-size allocation, through either chunk variant or through
the Arena, returns a detached Handle (no chunk back-reference, dangling
address) and leaves the state — cursor, remaining capacity,
live-allocation count, chunk list — exactly as it was; iterating such
allocations any number of times still leaves the state unchanged. -/
theorem C8_zero_size_allocations_are_no_ops (a : SingleArena)
    (t : AtomicSingleArena) (ar : Arena) (size align start n : Nat)
    (hsize : size = 0) :
    a.allocate size align = .ok a ⟨align, false⟩ ∧
    t.allocate size align = .ok t ⟨align, false⟩ ∧
    ar.allocate size align start = .ok ar ⟨align, false⟩ ∧
    a.iterAllocate size align n = a ∧
    t.iterAllocate size align n = t ∧
    ar.iterAllocate size align start n = ar := by
  subst hsize
  have h1 : ∀ x : SingleArena, x.allocate 0 align = .ok x ⟨align, false⟩ := by
    intro x
    unfold SingleArena.allocate
    rw [if_pos rfl]
  have h2 : ∀ x : AtomicSingleArena,
      x.allocate 0 align = .ok x ⟨align, false⟩ := by
    intro x
    unfold AtomicSingleArena.allocate
    rw [if_pos rfl]
  have h3 : ∀ x : Arena, x.allocate 0 align start = .ok x ⟨align, false⟩ := by
    intro x
    unfold Arena.allocate
    rw [if_pos rfl]
  refine ⟨h1 a, h2 t, h3 ar, ?_, ?_, ?_⟩
  · induction n with
    | zero => rfl
    | succ n ih =>
        unfold SingleArena.iterAllocate
        rw [ih]
        unfold SingleArena.allocState
        rw [h1 a]
  · induction n with
    | zero => rfl
    | succ n ih =>
        unfold AtomicSingleArena.iterAllocate
        rw [ih]
        unfold AtomicSingleArena.allocState
        rw [h2 t]
  · induction n with
    | zero => rfl
    | succ n ih =>
        unfold Arena.iterAllocate
        rw [ih]
        unfold Arena.allocState
        rw [h3 ar]

theorem C8_witness :
    (0 : Nat) = 0 ∧
    (SingleArena.allocate ⟨16, 0, 3, 2⟩ 0 4 = .ok ⟨16, 0, 3, 2⟩ ⟨4, false⟩ ∧
      AtomicSingleArena.allocate ⟨16, 0, 3, 2, false, false⟩ 0 4 =
        .ok ⟨16, 0, 3, 2, false, false⟩ ⟨4, false⟩ ∧
      Arena.allocate ⟨[⟨16, 0, 3, 2⟩]⟩ 0 4 0 =
        .ok ⟨[⟨16, 0, 3, 2⟩]⟩ ⟨4, false⟩ ∧
      SingleArena.iterAllocate ⟨16, 0, 3, 2⟩ 0 4 5 = ⟨16, 0, 3, 2⟩ ∧
      AtomicSingleArena.iterAllocate ⟨16, 0, 3, 2, false, false⟩ 0 4 5 =
        ⟨16, 0, 3, 2, false, false⟩ ∧
      Arena.iterAllocate ⟨[⟨16, 0, 3, 2⟩]⟩ 0 4 0 5 = ⟨[⟨16, 0, 3, 2⟩]⟩) :=
  ⟨rfl,
    C8_zero_size_allocations_are_no_ops ⟨16, 0, 3, 2⟩
      ⟨16, 0, 3, 2, false, false⟩ ⟨[⟨16, 0, 3, 2⟩]⟩ 0 4 0 5 rfl⟩

/-- C9: `adjust_allocation_count(delta)` on either chunk variant (for
the concurrent one, with a healthy counter lock) sets the
live-allocation count to `count + delta` whenever that value is
representable as a `usize`, and panics — terminating the process rather
than wrapping — when the result would drop below 0 or exceed
`usize::MAX`.  `delta` ranges over `isize`. -/
theorem C9_adjust_count_exact_or_fatal (a : SingleArena)
    (t : AtomicSingleArena) (d : Int)
    (ha : a.allocations < USIZE) (ht : t.allocations < USIZE)
    (htp : t.allocPoisoned = false)
    (hd1 : -(9223372036854775808 : Int) ≤ d)
    (hd2 : d < 9223372036854775808) :
    (0 ≤ (a.allocations : Int) + d ∧ (a.allocations : Int) + d < (USIZE : Int) →
      a.adjust_allocation_count d = some (((a.allocations : Int) + d).toNat)) ∧
    ((a.allocations : Int) + d < 0 ∨ (USIZE : Int) ≤ (a.allocations : Int) + d →
      a.adjust_allocation_count d = none) ∧
    (0 ≤ (t.allocations : Int) + d ∧ (t.allocations : Int) + d < (USIZE : Int) →
      t.adjust_allocation_count d = some (((t.allocations : Int) + d).toNat)) ∧
    ((t.allocations : Int) + d < 0 ∨ (USIZE : Int) ≤ (t.allocations : Int) + d →
      t.adjust_allocation_count d = none) := by
  have hsA := checked_add_signed_spec a.allocations d ha hd1 hd2
  have hsT := checked_add_signed_spec t.allocations d ht hd1 hd2
  have hT : ∀ e : Int, t.adjust_allocation_count e =
      checked_add_signed t.allocations e := by
    intro e
    unfold AtomicSingleArena.adjust_allocation_count
    rw [if_neg (by simp [htp])]
  refine ⟨?_, ?_, ?_, ?_⟩
  · intro hcond
    unfold SingleArena.adjust_allocation_count
    rw [hsA, if_pos hcond]
  · intro hcond
    unfold SingleArena.adjust_allocation_count
    rw [hsA, if_neg (by intro hx; omega)]
  · intro hcond
    rw [hT d, hsT, if_pos hcond]
  · intro hcond
    rw [hT d, hsT, if_neg (by intro hx; omega)]

theorem C9_witness :
    ((⟨0, 0, 0, 5⟩ : SingleArena).allocations < USIZE ∧
      (⟨0, 0, 0, 5, false, false⟩ : AtomicSingleArena).allocations < USIZE ∧
      (⟨0, 0, 0, 5, false, false⟩ : AtomicSingleArena).allocPoisoned = false ∧
      -(9223372036854775808 : Int) ≤ (-2 : Int) ∧
      (-2 : Int) < 9223372036854775808) ∧
    ((0 ≤ ((⟨0, 0, 0, 5⟩ : SingleArena).allocations : Int) + (-2) ∧
        ((⟨0, 0, 0, 5⟩ : SingleArena).allocations : Int) + (-2) < (USIZE : Int) →
      SingleArena.adjust_allocation_count ⟨0, 0, 0, 5⟩ (-2) =
        some ((((⟨0, 0, 0, 5⟩ : SingleArena).allocations : Int) + (-2)).toNat)) ∧
      (((⟨0, 0, 0, 5⟩ : SingleArena).allocations : Int) + (-2) < 0 ∨
          (USIZE : Int) ≤ ((⟨0, 0, 0, 5⟩ : SingleArena).allocations : Int) + (-2) →
        SingleArena.adjust_allocation_count ⟨0, 0, 0, 5⟩ (-2) = none) ∧
      (0 ≤ ((⟨0, 0, 0, 5, false, false⟩ : AtomicSingleArena).allocations : Int) + (-2) ∧
          ((⟨0, 0, 0, 5, false, false⟩ : AtomicSingleArena).allocations : Int) + (-2) <
            (USIZE : Int) →
        AtomicSingleArena.adjust_allocation_count ⟨0, 0, 0, 5, false, false⟩ (-2) =
          some ((((⟨0, 0, 0, 5, false, false⟩ : AtomicSingleArena).allocations : Int) +
            (-2)).toNat)) ∧
      (((⟨0, 0, 0, 5, false, false⟩ : AtomicSingleArena).allocations : Int) + (-2) < 0 ∨
          (USIZE : Int) ≤
            ((⟨0, 0, 0, 5, false, false⟩ : AtomicSingleArena).allocations : Int) + (-2) →
        AtomicSingleArena.adjust_allocation_count ⟨0, 0, 0, 5, false, false⟩ (-2) =
          none)) :=
  ⟨⟨by decide, by decide, by decide, by decide, by decide⟩,
    C9_adjust_count_exact_or_fatal ⟨0, 0, 0, 5⟩ ⟨0, 0, 0, 5, false, false⟩ (-2)
      (by decide) (by decide) (by decide) (by decide) (by decide)⟩

/-- C10: in `SingleArena::allocate` for a non-zero-size object, when the
object's size plus the alignment offset overflows `usize`
(`size + offset ≥ 2^64`), `size.checked_add(offset)` yields `None` and
the `?` operator makes `allocate` return `None` — the "no capacity"
result with the chunk unchanged — so a wrapped sum can never make the
capacity check pass. -/
theorem C10_overflowing_size_returns_none (a : SingleArena)
    (size align : Nat) (hsize : size ≠ 0)
    (hov : USIZE ≤ size + align_offset a.free_pointer align) :
    a.allocate size align = .noCapacity a := by
  unfold SingleArena.allocate
  rw [if_neg hsize, (checked_add_eq_none_iff _ _).mpr hov]

theorem C10_witness :
    (9223372036854775809 : Nat) ≠ 0 ∧
    USIZE ≤ 9223372036854775809 +
      align_offset (⟨5, 0, 1, 0⟩ : SingleArena).free_pointer
        9223372036854775808 ∧
    SingleArena.allocate ⟨5, 0, 1, 0⟩ 9223372036854775809 9223372036854775808 =
      .noCapacity ⟨5, 0, 1, 0⟩ :=
  ⟨by decide, by decide,
    C10_overflowing_size_returns_none ⟨5, 0, 1, 0⟩ 9223372036854775809
      9223372036854775808 (by decide) (by decide)⟩

end RustArena
